import Mathlib

/-!
# pc2mqtt — verification of the connection lifecycle and entity-publication protocol

Shallow embedding of the Go sources of `pc2mqtt`:
* `internal/entities` (`GetEntities`, `GetDeviceAvailability`, `GetDevice`),
* `internal/system/commands.go` (`GetShutdownCommand`, `GetRebootCommand`),
* `cmd` main program (`publishAutoDiscoveryConfigs`, `publishAvailability`,
  `publishSensorStates`, `subscribeToCommandTopics`, `publishOfflineStatus`,
  the `OnConnect` handler and the startup / shutdown sequences).

Go conventions carried over: composite-literal fields that are not mentioned
take the Go zero value (empty string, `0`, `false`); `runtime.GOOS` /
`runtime.GOARCH` become explicit string parameters `goos` / `goarch`;
side effects that only log are dropped; publishes and subscriptions are
recorded as explicit event values so that ordering and multiplicity can be
stated.
-/

set_option autoImplicit false

namespace Pc2Mqtt

/-- Configuration object, modelled from the fields the sources read
(`appconfig.RequireConfig()`): device id, device name, debug flag and the
MQTT auto-discovery prefix (`appConf.Mqtt.AutoDiscoveryPrefix`, here named
`autoDiscoveryPfx`).  Broker host/port/credentials are not needed by any
claim and are omitted. -/
structure AppConfig where
  deviceId : String
  deviceName : String
  debugMode : Bool
  autoDiscoveryPfx : String
  deriving DecidableEq, Repr

/-- `entities.Device` — static metadata shared by all entities of one host. -/
structure Device where
  identifiers : String
  manufacturer : String
  model : String
  name : String
  deriving DecidableEq, Repr

/-- `entities.Availability` — an availability topic plus its two payloads. -/
structure Availability where
  topic : String
  payloadAvailable : String
  payloadNotAvailable : String
  deriving DecidableEq, Repr

/-- `entities.DiscoveryConfig`.  Fields a Go composite literal leaves out get
the zero value, hence the defaults (`commandTopic := ""`, `qos := 0`, ...). -/
structure DiscoveryConfig where
  device : Device
  availability : Availability
  defaultEntityId : String
  uniqueId : String
  name : String
  icon : String
  stateTopic : String
  commandTopic : String := ""
  payloadOn : String := ""
  payloadOff : String := ""
  qos : Nat := 0
  deriving DecidableEq, Repr

/-- The local action a `Button` carries.  The Go value is a closure; the three
closures occurring in `GetEntities` are represented by this tag: the shutdown
action, the reboot action, and the debug test button's action (whose body only
logs, i.e. a no-op). -/
inductive ActionKind where
  | shutdownAction
  | rebootAction
  | testNoop
  deriving DecidableEq, Repr

/-- `entities.Entity` — the polymorphic entity: `BinarySensor` (no command)
or `Button` (carries an action). -/
inductive Entity where
  | binarySensor (discoveryTopic : String) (config : DiscoveryConfig)
  | button (action : ActionKind) (discoveryTopic : String) (config : DiscoveryConfig)
  deriving DecidableEq, Repr

namespace Entity

/-- `Entity.GetDiscoveryTopic`. -/
def getDiscoveryTopic : Entity → String
  | .binarySensor t _ => t
  | .button _ t _ => t

/-- `Entity.GetDiscoveryConfig`. -/
def getDiscoveryConfig : Entity → DiscoveryConfig
  | .binarySensor _ c => c
  | .button _ _ c => c

end Entity

/-- `entities.payloadOnline`. -/
def payloadOnline : String := "online"

/-- `entities.payloadOffline`. -/
def payloadOffline : String := "offline"

/-- `entities.GetDeviceAvailability`. -/
def GetDeviceAvailability (appConf : AppConfig) : Availability :=
  { topic := appConf.deviceName ++ "/state"
    payloadAvailable := payloadOnline
    payloadNotAvailable := payloadOffline }

/-- `entities.GetDevice` (`runtime.GOOS`/`GOARCH` passed explicitly). -/
def GetDevice (appConf : AppConfig) (goos goarch : String) : Device :=
  { identifiers := appConf.deviceId
    manufacturer := goos ++ "/" ++ goarch
    model := appConf.deviceName
    name := appConf.deviceName }

/-- `entities.GetEntities` — builds the entity list from configuration:
a power `BinarySensor`, a shutdown `Button`, a reboot `Button`, and, when
`DebugMode` is set, an appended test `Button`. -/
def GetEntities (appConf : AppConfig) (goos goarch : String) : List Entity :=
  let entityList : List Entity :=
    [ Entity.binarySensor
        (appConf.autoDiscoveryPfx ++ "/binary_sensor/" ++ appConf.deviceId ++ "/"
          ++ appConf.deviceName ++ "_sensor_power/config")
        { device := GetDevice appConf goos goarch
          availability :=
            { topic := appConf.deviceName ++ "/binary_sensor/availability"
              payloadAvailable := payloadOnline
              payloadNotAvailable := payloadOffline }
          defaultEntityId := "binary_sensor." ++ appConf.deviceName ++ "_sensor_power"
          uniqueId := appConf.deviceName ++ "_sensor_power"
          name := "Power"
          icon := "mdi:power"
          stateTopic := (GetDeviceAvailability appConf).topic
          payloadOn := (GetDeviceAvailability appConf).payloadAvailable
          payloadOff := (GetDeviceAvailability appConf).payloadNotAvailable
          qos := 1 },
      Entity.button .shutdownAction
        (appConf.autoDiscoveryPfx ++ "/button/" ++ appConf.deviceId ++ "/"
          ++ appConf.deviceName ++ "_button_shutdown/config")
        { device := GetDevice appConf goos goarch
          availability := GetDeviceAvailability appConf
          defaultEntityId := "button." ++ appConf.deviceName ++ "_button_shutdown"
          uniqueId := appConf.deviceName ++ "_button_shutdown"
          name := "Shutdown"
          icon := "mdi:power"
          stateTopic := appConf.deviceName ++ "/button/shutdown/state"
          commandTopic := appConf.deviceName ++ "/button/shutdown/command"
          qos := 1 },
      Entity.button .rebootAction
        (appConf.autoDiscoveryPfx ++ "/button/" ++ appConf.deviceId ++ "/"
          ++ appConf.deviceName ++ "_button_reboot/config")
        { device := GetDevice appConf goos goarch
          availability := GetDeviceAvailability appConf
          defaultEntityId := "button." ++ appConf.deviceName ++ "_button_reboot"
          uniqueId := appConf.deviceName ++ "_button_reboot"
          name := "Reboot"
          icon := "mdi:restart"
          stateTopic := appConf.deviceName ++ "/button/reboot/state"
          commandTopic := appConf.deviceName ++ "/button/reboot/command"
          qos := 1 } ]
  if appConf.debugMode then
    entityList ++
      [ Entity.button .testNoop
          (appConf.autoDiscoveryPfx ++ "/button/" ++ appConf.deviceId ++ "/"
            ++ appConf.deviceName ++ "_button_test/config")
          { device := GetDevice appConf goos goarch
            availability := GetDeviceAvailability appConf
            defaultEntityId := "button." ++ appConf.deviceName ++ "_button_test"
            uniqueId := appConf.deviceName ++ "_button_test"
            name := "Test"
            icon := "mdi:test-tube"
            stateTopic := appConf.deviceName ++ "/button/test/state"
            commandTopic := appConf.deviceName ++ "/button/test/command" } ]
  else
    entityList

/-! ## Platform command collaborator (`internal/system/commands.go`) -/

/-- `system.WINDOWS`. -/
def WINDOWS : String := "windows"

/-- `system.MACOS`. -/
def MACOS : String := "darwin"

/-- `system.LINUX`. -/
def LINUX : String := "linux"

/-- An `exec.Cmd` value: executable name plus arguments (never run here). -/
structure Cmd where
  exe : String
  args : List String
  deriving DecidableEq, Repr

/-- `system.GetShutdownCommand` (`runtime.GOOS` passed explicitly);
`Except.error` stands for a non-nil Go error. -/
def GetShutdownCommand (goos : String) : Except String Cmd :=
  if goos = WINDOWS then .ok ⟨"shutdown", ["/s"]⟩
  else if goos = MACOS then .ok ⟨"shutdown", ["-h", "now"]⟩
  else if goos = LINUX then .ok ⟨"systemctl", ["poweroff", "--ignore-inhibitors"]⟩
  else .error (goos ++ " does not support shutdown")

/-- `system.GetRebootCommand`. -/
def GetRebootCommand (goos : String) : Except String Cmd :=
  if goos = WINDOWS then .ok ⟨"shutdown", ["/r"]⟩
  else if goos = MACOS then .ok ⟨"reboot", []⟩
  else if goos = LINUX then .ok ⟨"systemctl", ["reboot", "--ignore-inhibitors"]⟩
  else .error (goos ++ " does not support reboot")

/-- Outcome of running a button's action body: each closure in `GetEntities`
either returns after a failed command lookup (logged), returns after a failed
`cmd.Start()` (logged), or initiates the command asynchronously.  Totality of
the Lean function models that the Go closure always returns normally. -/
inductive ActionOutcome where
  | failedGetCommand
  | failedStart
  | initiated (cmd : Cmd)
  | loggedOnly
  deriving DecidableEq, Repr

/-- The shutdown `Button`'s closure in `GetEntities`: fetch the platform
command; on error log and return; then `cmd.Start()`, whose success is the
explicit parameter `startOk`; on error log and return. -/
def shutdownButtonAction (goos : String) (startOk : Bool) : ActionOutcome :=
  match GetShutdownCommand goos with
  | .error _ => .failedGetCommand
  | .ok cmd => if startOk then .initiated cmd else .failedStart

/-- The reboot `Button`'s closure in `GetEntities`, same shape. -/
def rebootButtonAction (goos : String) (startOk : Bool) : ActionOutcome :=
  match GetRebootCommand goos with
  | .error _ => .failedGetCommand
  | .ok cmd => if startOk then .initiated cmd else .failedStart

/-- The debug test `Button`'s closure: only logs. -/
def testButtonAction : ActionOutcome := .loggedOnly

/-! ## Entities with commands and the command dispatcher -/

/-- `entities.EntityWithCommand` — the capability set {discovery config,
queueable action} exposed by `Button`-like entities. -/
structure EntityWithCommand where
  action : ActionKind
  discoveryTopic : String
  config : DiscoveryConfig
  deriving DecidableEq, Repr

/-- Modelled from the spec: `FilterEntitiesWithCommands` is absent from the
provided sources (only its callers in `main` and the `OnConnect` handler
appear).  Per the spec it is a type-preserving, order-preserving filter that
includes exactly the `Button`-like entities (those exposing a command) and
excludes `BinarySensor`-like entities. -/
def FilterEntitiesWithCommands (entityList : List Entity) : List EntityWithCommand :=
  entityList.filterMap fun e =>
    match e with
    | .binarySensor _ _ => none
    | .button a t c => some ⟨a, t, c⟩

/-- Result of one call of the shared message handler installed by
`subscribeToCommandTopics`: the actions it queued (in order) and whether the
unhandled-topic warning was logged. -/
structure HandlerResult where
  invoked : List ActionKind
  warned : Bool
  deriving DecidableEq, Repr

/-- The loop body of the handler: scan `entitiesWithCommands` in order, and on
the first entity whose `CommandTopic` equals the message topic queue its
action and `break`. -/
def dispatchLoop : List EntityWithCommand → String → List ActionKind
  | [], _ => []
  | e :: rest, topic =>
    if e.config.commandTopic = topic then [e.action] else dispatchLoop rest topic

/-- The shared message handler of `subscribeToCommandTopics`: it logs the
payload, runs the matching loop, and logs a warning when no entity matched.
(The message counter only feeds logging and is not modelled.) -/
def handleMessage (entitiesWithCommands : List EntityWithCommand)
    (topic payload : String) : HandlerResult :=
  let _ := payload
  let invoked := dispatchLoop entitiesWithCommands topic
  { invoked := invoked, warned := invoked.isEmpty }

/-! ## Publication protocol (`main`'s publish helpers) -/

/-- An MQTT publish payload: a plain string, or the JSON serialization of a
discovery config (`json.Marshal(ety.GetDiscoveryConfig())`, kept symbolic). -/
inductive MqttPayload where
  | str (s : String)
  | jsonConfig (c : DiscoveryConfig)
  deriving DecidableEq, Repr

/-- One `client.Publish(topic, qos, retained, payload)` call. -/
structure Publish where
  topic : String
  qos : Nat
  retained : Bool
  payload : MqttPayload
  deriving DecidableEq, Repr

/-- `publishAutoDiscoveryConfigs`: for each entity, publish the JSON discovery
config to its discovery topic, QoS 1, retained.  A per-entity failure only
logs and `continue`s, so the emitted calls are exactly one per entity. -/
def publishAutoDiscoveryConfigs (entityList : List Entity) : List Publish :=
  entityList.map fun ety =>
    { topic := ety.getDiscoveryTopic
      qos := 1
      retained := true
      payload := .jsonConfig ety.getDiscoveryConfig }

/-- `publishAvailability`: for each entity, publish its availability's
`PayloadAvailable` to its availability topic, QoS 1, retained. -/
def publishAvailability (entityList : List Entity) : List Publish :=
  entityList.map fun ety =>
    { topic := ety.getDiscoveryConfig.availability.topic
      qos := 1
      retained := true
      payload := .str ety.getDiscoveryConfig.availability.payloadAvailable }

/-- The type-switch collection loop at the top of `publishSensorStates`:
the discovery configs of the `BinarySensor` entities, in order. -/
def sensorsIn : List Entity → List DiscoveryConfig
  | [] => []
  | .binarySensor _ c :: rest => c :: sensorsIn rest
  | .button _ _ _ :: rest => sensorsIn rest

/-- `publishSensorStates`: for each `BinarySensor`, publish its `PayloadOn`
to its `StateTopic`, QoS 1, retained. -/
def publishSensorStates (entityList : List Entity) : List Publish :=
  (sensorsIn entityList).map fun sensor =>
    { topic := sensor.stateTopic
      qos := 1
      retained := true
      payload := .str sensor.payloadOn }

/-- The filter map built by `subscribeToCommandTopics`: each command topic at
QoS 1, handed to one `client.SubscribeMultiple` call. -/
def subscribeFilters (entitiesWithCommands : List EntityWithCommand) : List (String × Nat) :=
  entitiesWithCommands.map fun ety => (ety.config.commandTopic, 1)

/-- `publishOfflineStatus`: one publish of the host availability's
`PayloadNotAvailable` to its topic, QoS 1, retained, awaited with
`token.WaitTimeout(2 * time.Second)`. -/
def publishOfflineStatus (appConf : AppConfig) : Publish :=
  { topic := (GetDeviceAvailability appConf).topic
    qos := 1
    retained := true
    payload := .str (GetDeviceAvailability appConf).payloadNotAvailable }

/-- The bound, in milliseconds, of the wait on the offline publish
(`token.WaitTimeout(2 * time.Second)` in `publishOfflineStatus`). -/
def offlinePublishWaitMs : Nat := 2000

/-! ## Connection lifecycle (`createClient`'s `OnConnect` handler) -/

/-- One step of the post-connect sequence: a publish call or the single
batched subscribe call. -/
inductive ConnectStep where
  | pub (p : Publish)
  | subscribeCmds (filters : List (String × Nat))
  deriving DecidableEq, Repr

/-- The body of the goroutine spawned by the `OnConnect` handler, given the
current value of the `initialConnectionDone` flag: rebuild the entities,
publish discovery configs only when the flag is still unset (then set it),
then publish availability, publish sensor states, and subscribe to command
topics.  Returns the emitted steps and the updated flag. -/
def onConnectSequence (appConf : AppConfig) (goos goarch : String)
    (initialConnectionDone : Bool) : List ConnectStep × Bool :=
  let entityList := GetEntities appConf goos goarch
  let entitiesWithCommands := FilterEntitiesWithCommands entityList
  let discoverySteps :=
    if initialConnectionDone then ([] : List ConnectStep)
    else (publishAutoDiscoveryConfigs entityList).map .pub
  (discoverySteps
      ++ (publishAvailability entityList).map .pub
      ++ (publishSensorStates entityList).map .pub
      ++ [.subscribeCmds (subscribeFilters entitiesWithCommands)],
    true)

/-- `n` successive successful connection events starting from a given
`initialConnectionDone` flag (the transport serializes `OnConnect`
callbacks): the list of per-event step lists. -/
def connectionEvents (appConf : AppConfig) (goos goarch : String) :
    Nat → Bool → List (List ConnectStep)
  | 0, _ => []
  | n + 1, done =>
    let r := onConnectSequence appConf goos goarch done
    r.1 :: connectionEvents appConf goos goarch n r.2

/-! ## Startup wait and shutdown sequence (`main`) -/

/-- The startup wait bound: `time.After(10 * time.Second)`, in ms. -/
def initialConnectTimeoutMs : Nat := 10000

/-- Outcome of `main`'s startup `select` on `connectionEstablished`. -/
inductive StartupOutcome where
  | proceeded
  | fatalTimeout
  deriving DecidableEq, Repr

/-- `main`'s wait after `client.Connect()`: the `select` receives from the
one-slot `connectionEstablished` channel or fires the 10-second timeout;
`signalReceived` says whether the signal arrives within the bound.  The
timeout branch is `log.Fatal`, i.e. a fatal process exit. -/
def awaitInitialConnection (signalReceived : Bool) : StartupOutcome :=
  if signalReceived then .proceeded else .fatalTimeout

/-- Result of the publish wait inside `publishOfflineStatus`: success,
broker error, or the 2-second `WaitTimeout` elapsing. -/
inductive PublishOutcome where
  | ok
  | failed
  | timedOut
  deriving DecidableEq, Repr

/-- One event of the signal-handler goroutine in `main`. -/
inductive ShutdownEvent where
  | publishOffline (p : Publish) (waitBoundMs : Nat)
  | disconnect (graceMs : Nat)
  | exitProcess (code : Nat)
  deriving DecidableEq, Repr

/-- The signal-handler goroutine, run upon a termination signal:
`publishOfflineStatus(client)` (whose wait outcome only affects logging),
`client.Disconnect(2000)`, then `os.Exit(0)`. -/
def shutdownSequence (appConf : AppConfig) (offlineOutcome : PublishOutcome) :
    List ShutdownEvent :=
  let _ := offlineOutcome
  [ .publishOffline (publishOfflineStatus appConf) offlinePublishWaitMs,
    .disconnect 2000,
    .exitProcess 0 ]

/-! ## Observers used by the statements -/

/-- The shape of an entity, for stating the fixed order of `GetEntities`. -/
inductive EntityKind where
  | sensor
  | button (a : ActionKind)
  deriving DecidableEq, Repr

/-- Classify an entity by variant and carried action. -/
def entityKind : Entity → EntityKind
  | .binarySensor _ _ => .sensor
  | .button a _ _ => .button a

/-- Does a connect step use QoS 1 (for a subscribe step: every filter)? -/
def stepUsesQos1 : ConnectStep → Bool
  | .pub p => p.qos == 1
  | .subscribeCmds filters => filters.all fun f => f.2 == 1

/-- Number of discovery-config publishes among the steps (a publish whose
payload is a JSON discovery config). -/
def countDiscoveryPublishes (steps : List ConnectStep) : Nat :=
  steps.countP fun s =>
    match s with
    | .pub p => match p.payload with | .jsonConfig _ => true | .str _ => false
    | .subscribeCmds _ => false

/-- The discovery-topic template stated by the spec:
`{pfx}/{component}/{deviceId}/{deviceName}_{sfx}/config`. -/
def discoveryTopicTemplate (pfx component deviceId deviceName sfx : String) : String :=
  pfx ++ "/" ++ component ++ "/" ++ deviceId ++ "/" ++ deviceName ++ "_" ++ sfx ++ "/config"

/-- The state-topic template stated by the spec:
`{deviceName}/{component}/{sfx}/state`. -/
def stateTopicTemplate (deviceName component sfx : String) : String :=
  deviceName ++ "/" ++ component ++ "/" ++ sfx ++ "/state"

/-- The command-topic template stated by the spec:
`{deviceName}/{component}/{sfx}/command`. -/
def commandTopicTemplate (deviceName component sfx : String) : String :=
  deviceName ++ "/" ++ component ++ "/" ++ sfx ++ "/command"

/-- The per-entity topic shape asserted by the spec: some component and
suffix instantiate both the discovery-topic template and the state-topic
template for this entity.  (The claim also covers command topics; dropping
that conjunct only weakens the assertion, so refuting this weaker form
refutes the claim.) -/
def claimedTopicShape (appConf : AppConfig) (e : Entity) : Prop :=
  ∃ component sfx,
    e.getDiscoveryTopic
        = discoveryTopicTemplate appConf.autoDiscoveryPfx component
            appConf.deviceId appConf.deviceName sfx
      ∧ e.getDiscoveryConfig.stateTopic = stateTopicTemplate appConf.deviceName component sfx

/-- The configuration of the spec's concrete scenario
(`deviceName: "office-pc"`, `discoveryPrefix: "homeassistant"`,
`debugMode: false`), with device id `"id1"`. -/
def sampleConfig : AppConfig :=
  { deviceId := "id1", deviceName := "office-pc", debugMode := false
    autoDiscoveryPfx := "homeassistant" }

/-- The scenario configuration with the debug flag set. -/
def sampleConfigDebug : AppConfig :=
  { sampleConfig with debugMode := true }

/-- No instantiation of the spec's state-topic template yields the string
`"office-pc/state"`: the template contains three `/`-separated segments after
the device name, so its length is at least 17 while the string has length
15. -/
lemma sample_state_ne_template (component sfx : String) :
    "office-pc/state" ≠ stateTopicTemplate "office-pc" component sfx := by
  intro h
  have hlen := congrArg String.length h
  simp only [stateTopicTemplate, String.length_append] at hlen
  have h1 : ("office-pc" : String).length = 9 := rfl
  have h2 : ("/" : String).length = 1 := rfl
  have h3 : ("/state" : String).length = 6 := rfl
  have h4 : ("office-pc/state" : String).length = 15 := rfl
  rw [h1, h2, h3, h4] at hlen
  omega

/-! ## Claim theorems -/

/-- C2: for every configuration, `GetEntities` returns, in fixed order, one
`BinarySensor`, one shutdown `Button`, one reboot `Button`, and exactly when
the debug flag is set one additional `Button` carrying the no-op test action;
its length is 3, or 4 in debug mode. -/
theorem getEntities_fixed_order (appConf : AppConfig) (goos goarch : String) :
    (GetEntities appConf goos goarch).map entityKind
        = (if appConf.debugMode then
            [.sensor, .button .shutdownAction, .button .rebootAction, .button .testNoop]
          else
            [.sensor, .button .shutdownAction, .button .rebootAction])
      ∧ (GetEntities appConf goos goarch).length = (if appConf.debugMode then 4 else 3) := by
  cases h : appConf.debugMode <;> simp [GetEntities, entityKind, h]

/-- C3 counterexample: under the scenario configuration, the power
`BinarySensor` violates the claimed topic shape — its state topic is
`office-pc/state`, which no instantiation of the spec's state-topic template
`{deviceName}/{component}/{sfx}/state` can produce. -/
theorem topicTemplate_counterexample :
    ¬ ∀ e ∈ GetEntities sampleConfig "linux" "amd64", claimedTopicShape sampleConfig e := by
  intro h
  obtain ⟨component, sfx, -, hstate⟩ :=
    h ((GetEntities sampleConfig "linux" "amd64").get ⟨0, by decide⟩) (List.get_mem _ 0 _)
  have hst : "office-pc/state" = stateTopicTemplate "office-pc" component sfx := hstate
  exact sample_state_ne_template component sfx hst

/-- C3 amended: the discovery topics of all entities follow the template
`{pfx}/{component}/{deviceId}/{deviceName}_{sfx}/config` with suffixes
`sensor_power`, `button_shutdown`, `button_reboot` (and `button_test` in
debug mode); the buttons' state and command topics follow
`{deviceName}/button/{sfx}/state` and `.../command` with suffixes `shutdown`,
`reboot` (and `test`); the `BinarySensor`'s state topic is instead the host
availability topic `{deviceName}/state` and it has no command topic.  In the
spec's concrete scenario the shutdown button's command topic is
`office-pc/button/shutdown/command` and its discovery topic is
`homeassistant/button/id1/office-pc_button_shutdown/config`. -/
theorem entity_topics (appConf : AppConfig) (goos goarch : String) :
    ((GetEntities appConf goos goarch).map Entity.getDiscoveryTopic
        = if appConf.debugMode then
            [discoveryTopicTemplate appConf.autoDiscoveryPfx "binary_sensor"
               appConf.deviceId appConf.deviceName "sensor_power",
             discoveryTopicTemplate appConf.autoDiscoveryPfx "button"
               appConf.deviceId appConf.deviceName "button_shutdown",
             discoveryTopicTemplate appConf.autoDiscoveryPfx "button"
               appConf.deviceId appConf.deviceName "button_reboot",
             discoveryTopicTemplate appConf.autoDiscoveryPfx "button"
               appConf.deviceId appConf.deviceName "button_test"]
          else
            [discoveryTopicTemplate appConf.autoDiscoveryPfx "binary_sensor"
               appConf.deviceId appConf.deviceName "sensor_power",
             discoveryTopicTemplate appConf.autoDiscoveryPfx "button"
               appConf.deviceId appConf.deviceName "button_shutdown",
             discoveryTopicTemplate appConf.autoDiscoveryPfx "button"
               appConf.deviceId appConf.deviceName "button_reboot"])
      ∧ ((GetEntities appConf goos goarch).map (fun e => e.getDiscoveryConfig.stateTopic)
          = if appConf.debugMode then
              [(GetDeviceAvailability appConf).topic,
               stateTopicTemplate appConf.deviceName "button" "shutdown",
               stateTopicTemplate appConf.deviceName "button" "reboot",
               stateTopicTemplate appConf.deviceName "button" "test"]
            else
              [(GetDeviceAvailability appConf).topic,
               stateTopicTemplate appConf.deviceName "button" "shutdown",
               stateTopicTemplate appConf.deviceName "button" "reboot"])
      ∧ ((GetEntities appConf goos goarch).map (fun e => e.getDiscoveryConfig.commandTopic)
          = if appConf.debugMode then
              ["", commandTopicTemplate appConf.deviceName "button" "shutdown",
               commandTopicTemplate appConf.deviceName "button" "reboot",
               commandTopicTemplate appConf.deviceName "button" "test"]
            else
              ["", commandTopicTemplate appConf.deviceName "button" "shutdown",
               commandTopicTemplate appConf.deviceName "button" "reboot"])
      ∧ (GetEntities sampleConfig goos goarch).map (fun e => e.getDiscoveryConfig.commandTopic)
          = ["", "office-pc/button/shutdown/command", "office-pc/button/reboot/command"]
      ∧ (GetEntities sampleConfig goos goarch).map Entity.getDiscoveryTopic
          = ["homeassistant/binary_sensor/id1/office-pc_sensor_power/config",
             "homeassistant/button/id1/office-pc_button_shutdown/config",
             "homeassistant/button/id1/office-pc_button_reboot/config"] := by
  refine ⟨?_, ?_, ?_, by rfl, by rfl⟩ <;>
    cases h : appConf.debugMode <;>
      simp [GetEntities, discoveryTopicTemplate, stateTopicTemplate, commandTopicTemplate,
        Entity.getDiscoveryTopic, Entity.getDiscoveryConfig, GetDeviceAvailability, h,
        String.append_assoc]

/-- C4 counterexample: under the scenario configuration, the power
`BinarySensor`'s discovery config does not reference the host availability of
`GetDeviceAvailability` — its availability topic is
`office-pc/binary_sensor/availability`, not `office-pc/state`. -/
theorem sharedAvailability_counterexample :
    ¬ ∀ e ∈ GetEntities sampleConfig "linux" "amd64",
        e.getDiscoveryConfig.availability = GetDeviceAvailability sampleConfig := by
  intro h
  have h0 := h ((GetEntities sampleConfig "linux" "amd64").get ⟨0, by decide⟩)
    (List.get_mem _ 0 _)
  have ht : ("office-pc/binary_sensor/availability" : String) = "office-pc/state" :=
    congrArg Availability.topic h0
  exact absurd ht (by decide)

/-- C4 amended: the shutdown, reboot (and debug test) buttons all reference
the host availability `GetDeviceAvailability`, but the power `BinarySensor`
references its own availability channel on topic
`{deviceName}/binary_sensor/availability` — with the same `online`/`offline`
payload strings; accordingly the per-connection availability publish targets
the sensor's own topic as well as the host topic (once per button). -/
theorem availability_channels (appConf : AppConfig) (goos goarch : String) :
    ((GetEntities appConf goos goarch).map (fun e => e.getDiscoveryConfig.availability)
        = if appConf.debugMode then
            [{ topic := appConf.deviceName ++ "/binary_sensor/availability",
               payloadAvailable := payloadOnline, payloadNotAvailable := payloadOffline },
             GetDeviceAvailability appConf, GetDeviceAvailability appConf,
             GetDeviceAvailability appConf]
          else
            [{ topic := appConf.deviceName ++ "/binary_sensor/availability",
               payloadAvailable := payloadOnline, payloadNotAvailable := payloadOffline },
             GetDeviceAvailability appConf, GetDeviceAvailability appConf])
      ∧ ((publishAvailability (GetEntities appConf goos goarch)).map Publish.topic
          = if appConf.debugMode then
              [appConf.deviceName ++ "/binary_sensor/availability",
               (GetDeviceAvailability appConf).topic, (GetDeviceAvailability appConf).topic,
               (GetDeviceAvailability appConf).topic]
            else
              [appConf.deviceName ++ "/binary_sensor/availability",
               (GetDeviceAvailability appConf).topic, (GetDeviceAvailability appConf).topic])
      ∧ (GetDeviceAvailability appConf).payloadAvailable = payloadOnline
      ∧ (GetDeviceAvailability appConf).payloadNotAvailable = payloadOffline := by
  refine ⟨?_, ?_, rfl, rfl⟩ <;> cases h : appConf.debugMode <;>
    simp [GetEntities, publishAvailability, Entity.getDiscoveryConfig,
      GetDeviceAvailability, h]

/-- C8: `GetShutdownCommand` and `GetRebootCommand` succeed exactly on the
supported operating systems `windows`, `darwin` and `linux`, and the shutdown
and reboot button actions return (a logged failure outcome) rather than crash
when the command cannot be obtained or cannot be started. -/
theorem platform_commands (goos : String) (startOk : Bool) :
    ((GetShutdownCommand goos).isOk = true ↔ (goos = WINDOWS ∨ goos = MACOS ∨ goos = LINUX))
      ∧ ((GetRebootCommand goos).isOk = true ↔ (goos = WINDOWS ∨ goos = MACOS ∨ goos = LINUX))
      ∧ (shutdownButtonAction goos startOk = .failedGetCommand
          ↔ (GetShutdownCommand goos).isOk = false)
      ∧ (rebootButtonAction goos startOk = .failedGetCommand
          ↔ (GetRebootCommand goos).isOk = false)
      ∧ (shutdownButtonAction goos startOk = .failedStart
          ↔ ((GetShutdownCommand goos).isOk = true ∧ startOk = false))
      ∧ (rebootButtonAction goos startOk = .failedStart
          ↔ ((GetRebootCommand goos).isOk = true ∧ startOk = false)) := by
  unfold shutdownButtonAction rebootButtonAction GetShutdownCommand GetRebootCommand
  cases startOk <;> split_ifs <;> simp_all [Except.isOk, Except.toBool]

/-- C9 counterexample: with the debug flag set, the appended test button's
discovery config carries `Qos = 0` (the field is omitted in its Go composite
literal), so not every entity's discovery config carries `Qos = 1`. -/
theorem qos_counterexample :
    ¬ ∀ e ∈ GetEntities sampleConfigDebug "linux" "amd64", e.getDiscoveryConfig.qos = 1 := by
  intro h
  have h3 := h ((GetEntities sampleConfigDebug "linux" "amd64").get ⟨3, by decide⟩)
    (List.get_mem _ 3 _)
  have h0 : (0 : Nat) = 1 := h3
  exact absurd h0 (by decide)

/-- C9 amended: every publish emitted by the post-connect sequence, the
offline publish, and every command-topic subscription filter use QoS 1, and
the discovery configs of the power sensor and the shutdown and reboot buttons
carry `Qos = 1` — but in debug mode the test button's discovery config
carries `Qos = 0`. -/
theorem qos_usage (appConf : AppConfig) (goos goarch : String) (done : Bool) :
    ((onConnectSequence appConf goos goarch done).1.all stepUsesQos1 = true)
      ∧ (publishOfflineStatus appConf).qos = 1
      ∧ ((subscribeFilters (FilterEntitiesWithCommands (GetEntities appConf goos goarch))).all
            (fun f => f.2 == 1) = true)
      ∧ ((GetEntities appConf goos goarch).map (fun e => e.getDiscoveryConfig.qos)
          = if appConf.debugMode then [1, 1, 1, 0] else [1, 1, 1]) := by
  refine ⟨?_, rfl, ?_, ?_⟩ <;> cases h : appConf.debugMode <;> cases done <;>
    simp [onConnectSequence, GetEntities, publishAutoDiscoveryConfigs, publishAvailability,
      publishSensorStates, sensorsIn, subscribeFilters, FilterEntitiesWithCommands,
      stepUsesQos1, Entity.getDiscoveryTopic, Entity.getDiscoveryConfig, h]

/-- C10: the power `BinarySensor`'s state topic is the host availability
topic `{deviceName}/state` of `GetDeviceAvailability`, and its
`PayloadOn`/`PayloadOff` are the availability payloads `online`/`offline`;
hence the per-connection sensor-state publish is exactly the availability
publish to the host topic (same topic, payload, QoS, retained flag), which
also occurs among the per-connection availability publishes, and the
shutdown-time offline publish writes the sensor's `PayloadOff` to the
sensor's state topic. -/
theorem sensor_state_matches_availability (appConf : AppConfig) (goos goarch : String) :
    ((sensorsIn (GetEntities appConf goos goarch)).map
          (fun c => (c.stateTopic, c.payloadOn, c.payloadOff))
        = [((GetDeviceAvailability appConf).topic,
            (GetDeviceAvailability appConf).payloadAvailable,
            (GetDeviceAvailability appConf).payloadNotAvailable)])
      ∧ publishSensorStates (GetEntities appConf goos goarch)
          = [{ topic := (GetDeviceAvailability appConf).topic, qos := 1, retained := true,
               payload := .str (GetDeviceAvailability appConf).payloadAvailable }]
      ∧ ({ topic := (GetDeviceAvailability appConf).topic, qos := 1, retained := true,
           payload := .str (GetDeviceAvailability appConf).payloadAvailable } : Publish)
          ∈ publishAvailability (GetEntities appConf goos goarch)
      ∧ publishOfflineStatus appConf
          = { topic := (GetDeviceAvailability appConf).topic, qos := 1, retained := true,
              payload := .str (GetDeviceAvailability appConf).payloadNotAvailable }
      ∧ (GetDeviceAvailability appConf).payloadAvailable = payloadOnline
      ∧ (GetDeviceAvailability appConf).payloadNotAvailable = payloadOffline := by
  refine ⟨?_, ?_, ?_, rfl, rfl, rfl⟩ <;> cases h : appConf.debugMode <;>
    simp [GetEntities, sensorsIn, publishSensorStates, publishAvailability,
      Entity.getDiscoveryConfig, GetDeviceAvailability, h]

/-- The handler's scan-and-break loop returns the action of the first entity
whose command topic equals the message topic, and nothing otherwise. -/
lemma dispatchLoop_eq_find (ets : List EntityWithCommand) (topic : String) :
    dispatchLoop ets topic
      = (match ets.find? (fun e => e.config.commandTopic == topic) with
         | some e => [e.action]
         | none => []) := by
  induction ets with
  | nil => rfl
  | cons e rest ih =>
      by_cases h : e.config.commandTopic = topic
      · simp [dispatchLoop, List.find?_cons, h]
      · simp [dispatchLoop, List.find?_cons, h, ih]

/-- C5: the shared message handler invokes exactly the action of the first
entity (in list order) whose command topic is string-equal to the message
topic — exactly once and independently of the payload — and when no entity
matches it invokes nothing and logs the unhandled-topic warning. -/
theorem command_dispatch (ets : List EntityWithCommand) (topic p1 p2 : String) :
    handleMessage ets topic p1 = handleMessage ets topic p2
      ∧ (handleMessage ets topic p1).invoked
          = (match ets.find? (fun e => e.config.commandTopic == topic) with
             | some e => [e.action]
             | none => [])
      ∧ ((handleMessage ets topic p1).warned = true
          ↔ ets.find? (fun e => e.config.commandTopic == topic) = none)
      ∧ (ets.find? (fun e => e.config.commandTopic == topic) = none
          ↔ ets.all (fun e => !(e.config.commandTopic == topic)) = true) := by
  refine ⟨rfl, dispatchLoop_eq_find ets topic, ?_, ?_⟩
  · cases hf : ets.find? (fun e => e.config.commandTopic == topic) <;>
      simp [handleMessage, dispatchLoop_eq_find, hf]
  · simp [List.find?_eq_none, List.all_eq_true]

/-- C7: after the connect call, startup proceeds exactly when the one-slot
connection-established signal is received within the 10-second bound, and
exits fatally exactly on timeout. -/
theorem startup_wait_gate (signalReceived : Bool) :
    (awaitInitialConnection signalReceived = .proceeded ↔ signalReceived = true)
      ∧ (awaitInitialConnection signalReceived = .fatalTimeout ↔ signalReceived = false)
      ∧ initialConnectTimeoutMs = 10000 := by
  cases signalReceived <;> simp [awaitInitialConnection, initialConnectTimeoutMs]

/-- C6: on a termination signal the process publishes the `offline` payload
to the host availability topic (wait bounded by 2000 ms), then calls the
transport disconnect with a 2000 ms grace period, then exits with code 0 —
the same sequence whatever the outcome of the offline publish. -/
theorem shutdown_sequence_order (appConf : AppConfig) (outcome : PublishOutcome) :
    shutdownSequence appConf outcome
        = [ .publishOffline (publishOfflineStatus appConf) 2000,
            .disconnect 2000, .exitProcess 0 ]
      ∧ shutdownSequence appConf outcome = shutdownSequence appConf .ok
      ∧ (publishOfflineStatus appConf).topic = (GetDeviceAvailability appConf).topic
      ∧ (publishOfflineStatus appConf).payload = .str payloadOffline := by
  exact ⟨rfl, rfl, rfl, rfl⟩

/-- The `OnConnect` goroutine always leaves `initialConnectionDone` set. -/
lemma onConnectSequence_snd (appConf : AppConfig) (goos goarch : String) (done : Bool) :
    (onConnectSequence appConf goos goarch done).2 = true := rfl

/-- Once `initialConnectionDone` is set, every further connection event runs
the same discovery-free sequence. -/
lemma connectionEvents_after_first (appConf : AppConfig) (goos goarch : String) (n : Nat) :
    connectionEvents appConf goos goarch n true
      = List.replicate n (onConnectSequence appConf goos goarch true).1 := by
  induction n with
  | zero => rfl
  | succ n ih => simp [connectionEvents, List.replicate, onConnectSequence_snd, ih]

/-- C1: over any run of `n + 1` successful connection events, the first event
consists of the per-entity discovery-config publishes followed by the steady
sequence, and every later event is exactly the steady sequence; the steady
sequence — availability publishes, sensor-state publishes, and the
command-topic subscription — contains no discovery publish, while the first
event contains exactly one discovery publish per entity. -/
theorem discovery_once_per_process (appConf : AppConfig) (goos goarch : String) (n : Nat) :
    connectionEvents appConf goos goarch (n + 1) false
        = ((publishAutoDiscoveryConfigs (GetEntities appConf goos goarch)).map .pub
              ++ (onConnectSequence appConf goos goarch true).1)
          :: List.replicate n (onConnectSequence appConf goos goarch true).1
      ∧ (onConnectSequence appConf goos goarch true).1
          = (publishAvailability (GetEntities appConf goos goarch)).map .pub
            ++ (publishSensorStates (GetEntities appConf goos goarch)).map .pub
            ++ [.subscribeCmds (subscribeFilters
                  (FilterEntitiesWithCommands (GetEntities appConf goos goarch)))]
      ∧ countDiscoveryPublishes (onConnectSequence appConf goos goarch true).1 = 0
      ∧ countDiscoveryPublishes (onConnectSequence appConf goos goarch false).1
          = (GetEntities appConf goos goarch).length := by
  refine ⟨?_, rfl, ?_, ?_⟩
  · simp [connectionEvents, onConnectSequence_snd, connectionEvents_after_first,
      onConnectSequence, List.append_assoc]
  · cases h : appConf.debugMode <;>
      simp [onConnectSequence, GetEntities, countDiscoveryPublishes,
        publishAutoDiscoveryConfigs, publishAvailability, publishSensorStates, sensorsIn,
        subscribeFilters, FilterEntitiesWithCommands, Entity.getDiscoveryTopic,
        Entity.getDiscoveryConfig, h, List.countP_append, List.countP_map, List.countP_cons]
  · cases h : appConf.debugMode <;>
      simp [onConnectSequence, GetEntities, countDiscoveryPublishes,
        publishAutoDiscoveryConfigs, publishAvailability, publishSensorStates, sensorsIn,
        subscribeFilters, FilterEntitiesWithCommands, Entity.getDiscoveryTopic,
        Entity.getDiscoveryConfig, h, List.countP_append, List.countP_map, List.countP_cons]

end Pc2Mqtt
